import Mathlib

/-!
Shallow embedding of `schedutils/coresched.c` (manage core scheduling cookies
for tasks) and verification of its specification claims.

The kernel's `prctl(PR_SCHED_CORE, ...)` interface, the `getpid` call and the
`execvp` image replacement are external collaborators; they are modelled by a
`World` oracle.  Every process-visible action of the tool (kernel calls with
their target PID and scope, printed messages with the values they interpolate,
usage display, image replacement) is recorded as an `Event` in a trace, and
each run returns the trace together with the process exit code.  Command-line
tokenisation by `getopt_long` is out of scope; a command line is modelled as
the list of recognised flags in order (each PID argument already parsed by the
external `strtopid_or_err`) together with the resulting `argc`/`optind`.
-/

namespace Coresched

/-- PR_SCHED_CORE_SCOPE_THREAD fallback definition from coresched.c. -/
def PR_SCHED_CORE_SCOPE_THREAD : Nat := 0

/-- PR_SCHED_CORE_SCOPE_THREAD_GROUP fallback definition from coresched.c. -/
def PR_SCHED_CORE_SCOPE_THREAD_GROUP : Nat := 1

/-- PR_SCHED_CORE_SCOPE_PROCESS_GROUP fallback definition from coresched.c. -/
def PR_SCHED_CORE_SCOPE_PROCESS_GROUP : Nat := 2

/-- SCHED_CORE_CMD_EXEC from the core_sched_cmd_t enum. -/
def SCHED_CORE_CMD_EXEC : Nat := 0

/-- SCHED_CORE_CMD_GET from the core_sched_cmd_t enum. -/
def SCHED_CORE_CMD_GET : Nat := 1

/-- SCHED_CORE_CMD_CREATE from the core_sched_cmd_t enum. -/
def SCHED_CORE_CMD_CREATE : Nat := 2

/-- SCHED_CORE_CMD_COPY from the core_sched_cmd_t enum. -/
def SCHED_CORE_CMD_COPY : Nat := 4

/-- EINVAL, the exit status used by every errx call in coresched.c. -/
def EINVAL : Nat := 22

/-- EXIT_SUCCESS, the status passed to exit at the end of usage. -/
def EXIT_SUCCESS : Nat := 0

/-- Embeds `struct args` from coresched.c.  `pid_t` fields are signed, so they
are embedded as `Int`; `0` means unset. -/
structure Args where
  from_pid : Int
  to_pid : Int
  type : Nat
  cmd : Nat
  exec_argv_offset : Nat
deriving DecidableEq, Repr

/-- A single prctl(PR_SCHED_CORE, ...) request: the sub-command, the target
PID and the scope argument, exactly as the C code passes them. -/
inductive KernelCall where
  | get (pid : Int) (scope : Nat)
  | create (pid : Int) (scope : Nat)
  | shareFrom (pid : Int) (scope : Nat)
  | shareTo (pid : Int) (scope : Nat)
deriving DecidableEq, Repr

/-- Which primitive produced an error message (the `err` call sites in
core_sched_get_cookie / create / pull / push). -/
inductive OpName where
  | opGet
  | opCreate
  | opPull
  | opPush
deriving DecidableEq, Repr

/-- Errors raised during parse_arguments / verify_arguments; every one of
them is an `errx(EINVAL, ...)` call in the C code. -/
inductive ParseError where
  | ambiguous (msg : String)
  | invalidType (s : String)
  | badUsage
  | multipleFunctions
  | destWithGet
  | sourceWithNew
  | copyNeedsSource
  | copyNeedsDest
  | destWithExec
deriving DecidableEq, Repr

/-- Process-visible actions of one run of the tool.  `forkEvent` is in the
vocabulary so that claims about forking can be stated; the reader can check
that no function of this embedding (faithful to coresched.c, which contains
no fork call) ever emits it.  `errMsg e pid op` records an `err(e, ...)` call
that interpolates `pid` into its message before exiting with status `e`. -/
inductive Event where
  | kernelCall (c : KernelCall)
  | errMsg (code : Nat) (pid : Int) (op : OpName)
  | printCookie (pid : Int) (cookie : Nat)
  | printNoCookie (pid : Int)
  | usageShown
  | parseErr (e : ParseError)
  | forkEvent
  | execImage (offset : Nat)
  | execFailMsg (offset : Nat)
deriving DecidableEq, Repr

/-- Oracle for the external collaborators: the kernel's answer to each prctl
request (`Except.error e` means the call failed and `errno = e`; for a
successful GET the payload is the cookie written through the out-pointer),
the tool's own PID as returned by getpid, whether execvp succeeds, the exit
status of the launched program when it does, and the exit status used by
errexec when it does not. -/
structure World where
  prctl : KernelCall → Except Nat Nat
  selfPid : Int
  execOk : Bool
  progStatus : Nat
  execFailCode : Nat

/-- Embeds core_sched_get_cookie: a PR_SCHED_CORE_GET prctl on `from_pid` at
THREAD scope; on failure, `err(errno, "Failed to get cookie from PID %d",
args->from_pid)` exits with errno. -/
def core_sched_get_cookie (w : World) (a : Args) : List Event × Except Nat Nat :=
  let c := KernelCall.get a.from_pid PR_SCHED_CORE_SCOPE_THREAD
  match w.prctl c with
  | Except.ok cookie => ([Event.kernelCall c], Except.ok cookie)
  | Except.error e =>
      ([Event.kernelCall c, Event.errMsg e a.from_pid OpName.opGet], Except.error e)

/-- Embeds core_sched_create_cookie: a PR_SCHED_CORE_CREATE prctl on
`to_pid` with the user scope; on failure the C code prints
`"Failed to create cookie for PID %d"` interpolating `args->from_pid`
(not the `to_pid` it targeted) and exits with errno. -/
def core_sched_create_cookie (w : World) (a : Args) : List Event × Except Nat Unit :=
  let c := KernelCall.create a.to_pid a.type
  match w.prctl c with
  | Except.ok _ => ([Event.kernelCall c], Except.ok ())
  | Except.error e =>
      ([Event.kernelCall c, Event.errMsg e a.from_pid OpName.opCreate], Except.error e)

/-- Embeds core_sched_pull_cookie: a PR_SCHED_CORE_SHARE_FROM prctl at THREAD
scope; on failure err exits with errno, naming the pulled-from PID. -/
def core_sched_pull_cookie (w : World) (fromPid : Int) : List Event × Except Nat Unit :=
  let c := KernelCall.shareFrom fromPid PR_SCHED_CORE_SCOPE_THREAD
  match w.prctl c with
  | Except.ok _ => ([Event.kernelCall c], Except.ok ())
  | Except.error e =>
      ([Event.kernelCall c, Event.errMsg e fromPid OpName.opPull], Except.error e)

/-- Embeds core_sched_push_cookie: a PR_SCHED_CORE_SHARE_TO prctl at the
given scope; on failure err exits with errno, naming the pushed-to PID. -/
def core_sched_push_cookie (w : World) (toPid : Int) (ty : Nat) : List Event × Except Nat Unit :=
  let c := KernelCall.shareTo toPid ty
  match w.prctl c with
  | Except.ok _ => ([Event.kernelCall c], Except.ok ())
  | Except.error e =>
      ([Event.kernelCall c, Event.errMsg e toPid OpName.opPush], Except.error e)

/-- Embeds core_sched_copy_cookie: pull from `from_pid`, then push to
`to_pid` at the user scope.  A failure in either half exits the process
there (the `Except.error` carries the exit status). -/
def core_sched_copy_cookie (w : World) (a : Args) : List Event × Except Nat Unit :=
  match core_sched_pull_cookie w a.from_pid with
  | (t, Except.error e) => (t, Except.error e)
  | (t, Except.ok _) =>
      match core_sched_push_cookie w a.to_pid a.type with
      | (t2, r) => (t ++ t2, r)

/-- Embeds core_sched_exec_with_cookie.  With no trailing program tokens
(`exec_argv_offset == 0`) it calls usage(), which exits with EXIT_SUCCESS.
Otherwise it pulls the cookie from `from_pid` when one was supplied, or sets
`to_pid = getpid()` and creates a fresh cookie at the user scope, and only
then replaces the process image with execvp; on execvp failure errexec exits.
The function always terminates the process, so it returns the exit status. -/
def core_sched_exec_with_cookie (w : World) (a : Args) : List Event × Nat :=
  if a.exec_argv_offset = 0 then
    ([Event.usageShown], EXIT_SUCCESS)
  else
    match
      (if a.from_pid ≠ 0 then
        core_sched_pull_cookie w a.from_pid
      else
        core_sched_create_cookie w { a with to_pid := w.selfPid }) with
    | (t, Except.error e) => (t, e)
    | (t, Except.ok _) =>
        if w.execOk then
          (t ++ [Event.execImage a.exec_argv_offset], w.progStatus)
        else
          (t ++ [Event.execImage a.exec_argv_offset, Event.execFailMsg a.exec_argv_offset],
            w.execFailCode)

/-- Embeds parse_core_sched_type: exact match against pid/tgid/pgid, else
`errx(EINVAL, "... is an invalid option ...")`. -/
def parse_core_sched_type (s : String) : Except ParseError Nat :=
  if s = "pid" then Except.ok PR_SCHED_CORE_SCOPE_THREAD
  else if s = "tgid" then Except.ok PR_SCHED_CORE_SCOPE_THREAD_GROUP
  else if s = "pgid" then Except.ok PR_SCHED_CORE_SCOPE_PROCESS_GROUP
  else Except.error (ParseError.invalidType s)

/-- Embeds set_pid_or_err: refuses to overwrite an already-set PID field
with `errx(EINVAL, "Ambigious usage: %s", err_msg)`. -/
def set_pid_or_err (dest src : Int) (err_msg : String) : Except ParseError Int :=
  if dest ≠ 0 then Except.error (ParseError.ambiguous err_msg)
  else Except.ok src

/-- Message constant ERR_MSG_MULTIPLE_SOURCE_PIDS from coresched.c. -/
def ERR_MSG_MULTIPLE_SOURCE_PIDS : String := "Multiple source PIDs defined"

/-- Message passed to set_pid_or_err by the -d (dest) case. -/
def ERR_MSG_MULTIPLE_DEST_PIDS : String := "Multiple destination PIDs defined"

/-- A recognised command-line flag with its already-parsed argument, in the
order getopt_long delivers them.  PID arguments are parsed by the external
strtopid_or_err before they reach this logic. -/
inductive Flag where
  | get (pid : Int)
  | new (pid : Int)
  | copy
  | source (pid : Int)
  | dest (pid : Int)
  | type (s : String)
deriving DecidableEq, Repr

/-- One iteration of the getopt_long switch in parse_arguments: the effect
of a single flag on the accumulating `struct args`. -/
def scan_flag (f : Flag) (a : Args) : Except ParseError Args :=
  match f with
  | Flag.get pid =>
      match set_pid_or_err a.from_pid pid ERR_MSG_MULTIPLE_SOURCE_PIDS with
      | Except.ok p =>
          Except.ok { a with cmd := Nat.lor a.cmd SCHED_CORE_CMD_GET, from_pid := p }
      | Except.error e => Except.error e
  | Flag.new pid =>
      match set_pid_or_err a.to_pid pid ERR_MSG_MULTIPLE_SOURCE_PIDS with
      | Except.ok p =>
          Except.ok { a with cmd := Nat.lor a.cmd SCHED_CORE_CMD_CREATE, to_pid := p }
      | Except.error e => Except.error e
  | Flag.copy =>
      Except.ok { a with cmd := Nat.lor a.cmd SCHED_CORE_CMD_COPY }
  | Flag.source pid =>
      match set_pid_or_err a.from_pid pid ERR_MSG_MULTIPLE_SOURCE_PIDS with
      | Except.ok p => Except.ok { a with from_pid := p }
      | Except.error e => Except.error e
  | Flag.dest pid =>
      match set_pid_or_err a.to_pid pid ERR_MSG_MULTIPLE_DEST_PIDS with
      | Except.ok p => Except.ok { a with to_pid := p }
      | Except.error e => Except.error e
  | Flag.type s =>
      match parse_core_sched_type s with
      | Except.ok t => Except.ok { a with type := t }
      | Except.error e => Except.error e

/-- The whole getopt_long loop of parse_arguments, applied to the flag list
in command-line order. -/
def scan_flags : List Flag → Args → Except ParseError Args
  | [], a => Except.ok a
  | f :: fs, a =>
      match scan_flag f a with
      | Except.ok a2 => scan_flags fs a2
      | Except.error e => Except.error e

/-- Embeds verify_arguments: the power-of-two check on the command bitmask
followed by the per-command switch. -/
def verify_arguments (a : Args) : Except ParseError Bool :=
  if Nat.land a.cmd (a.cmd - 1) ≠ 0 then
    Except.error ParseError.multipleFunctions
  else if a.cmd = SCHED_CORE_CMD_GET then
    if a.to_pid ≠ 0 then Except.error ParseError.destWithGet else Except.ok true
  else if a.cmd = SCHED_CORE_CMD_CREATE then
    if a.from_pid ≠ 0 then Except.error ParseError.sourceWithNew else Except.ok true
  else if a.cmd = SCHED_CORE_CMD_COPY then
    if a.from_pid = 0 then Except.error ParseError.copyNeedsSource
    else if a.to_pid = 0 then Except.error ParseError.copyNeedsDest
    else Except.ok true
  else if a.cmd = SCHED_CORE_CMD_EXEC then
    if a.to_pid ≠ 0 then Except.error ParseError.destWithExec else Except.ok true
  else Except.ok true

/-- Embeds parse_arguments after the getopt loop: trailing operands are the
exec argument vector only for the EXEC command (otherwise "bad usage"); with
no trailing operands and a set from_pid, the command is overwritten with GET
(the C condition does not test `cmd`, despite its comment); then
verify_arguments runs. -/
def parse_arguments (fs : List Flag) (argc optind : Nat) (a0 : Args) :
    Except ParseError Args :=
  match scan_flags fs a0 with
  | Except.error e => Except.error e
  | Except.ok a1 =>
      match
        (if optind < argc then
          if a1.cmd = SCHED_CORE_CMD_EXEC then
            Except.ok { a1 with exec_argv_offset := optind }
          else Except.error ParseError.badUsage
        else if argc = optind ∧ a1.from_pid ≠ 0 then
          Except.ok { a1 with cmd := SCHED_CORE_CMD_GET }
        else Except.ok a1) with
      | Except.error e => Except.error e
      | Except.ok a3 =>
          match verify_arguments a3 with
          | Except.error e => Except.error e
          | Except.ok _ => Except.ok a3

/-- The `struct args arguments = { 0 }` of main, with `arguments.type`
set to PR_SCHED_CORE_SCOPE_THREAD_GROUP. -/
def main_initial_args : Args :=
  { from_pid := 0, to_pid := 0, type := PR_SCHED_CORE_SCOPE_THREAD_GROUP,
    cmd := 0, exec_argv_offset := 0 }

/-- Embeds main: parse (any parse/verify failure is an errx(EINVAL) exit),
then dispatch on the command.  GET prints the PID and cookie and exits 0 when
the cookie is non-zero, prints a no-cookie message and exits 1 when it is
zero; CREATE and COPY exit 0 on success; EXEC never returns; the default
switch case calls usage(), which exits EXIT_SUCCESS. -/
def coresched_main (w : World) (fs : List Flag) (argc optind : Nat) :
    List Event × Nat :=
  match parse_arguments fs argc optind main_initial_args with
  | Except.error e => ([Event.parseErr e], EINVAL)
  | Except.ok a =>
      if a.cmd = SCHED_CORE_CMD_GET then
        match core_sched_get_cookie w a with
        | (t, Except.error e) => (t, e)
        | (t, Except.ok cookie) =>
            if cookie ≠ 0 then (t ++ [Event.printCookie a.from_pid cookie], 0)
            else (t ++ [Event.printNoCookie a.from_pid], 1)
      else if a.cmd = SCHED_CORE_CMD_CREATE then
        match core_sched_create_cookie w a with
        | (t, Except.error e) => (t, e)
        | (t, Except.ok _) => (t, 0)
      else if a.cmd = SCHED_CORE_CMD_COPY then
        match core_sched_copy_cookie w a with
        | (t, Except.error e) => (t, e)
        | (t, Except.ok _) => (t, 0)
      else if a.cmd = SCHED_CORE_CMD_EXEC then
        core_sched_exec_with_cookie w a
      else
        ([Event.usageShown], EXIT_SUCCESS)

/-- Holds of the kernel calls that the pull side (reading a cookie, sharing
from a task) is required to make at THREAD granularity; push-side calls are
unconstrained here. -/
def pull_side_thread_only (c : KernelCall) : Prop :=
  match c with
  | KernelCall.get _ s => s = PR_SCHED_CORE_SCOPE_THREAD
  | KernelCall.shareFrom _ s => s = PR_SCHED_CORE_SCOPE_THREAD
  | KernelCall.create _ _ => True
  | KernelCall.shareTo _ _ => True

/-- Kernel oracle that answers every prctl request successfully, reporting
cookie 7 on GET. -/
def wOk : World :=
  { prctl := fun _ => Except.ok 7, selfPid := 99, execOk := true,
    progStatus := 5, execFailCode := 126 }

/-- Kernel oracle whose GET succeeds with cookie 0 (task has no cookie). -/
def wGetZero : World :=
  { prctl := fun _ => Except.ok 0, selfPid := 99, execOk := true,
    progStatus := 5, execFailCode := 126 }

/-- Kernel oracle whose GET fails with errno 2. -/
def wGetFail : World :=
  { prctl := fun c =>
      match c with
      | KernelCall.get _ _ => Except.error 2
      | _ => Except.ok 7,
    selfPid := 99, execOk := true, progStatus := 5, execFailCode := 126 }

/-- Kernel oracle whose CREATE fails with errno 13 (EACCES). -/
def wCreateFail : World :=
  { prctl := fun c =>
      match c with
      | KernelCall.create _ _ => Except.error 13
      | _ => Except.ok 7,
    selfPid := 99, execOk := true, progStatus := 5, execFailCode := 126 }

/-- Kernel oracle whose SHARE_FROM fails with errno 3 (ESRCH). -/
def wPullFail : World :=
  { prctl := fun c =>
      match c with
      | KernelCall.shareFrom _ _ => Except.error 3
      | _ => Except.ok 7,
    selfPid := 99, execOk := true, progStatus := 5, execFailCode := 126 }

/-- Kernel oracle whose SHARE_TO fails with errno 1 (EPERM). -/
def wPushFail : World :=
  { prctl := fun c =>
      match c with
      | KernelCall.shareTo _ _ => Except.error 1
      | _ => Except.ok 7,
    selfPid := 99, execOk := true, progStatus := 5, execFailCode := 126 }

/-- Resolved arguments of `coresched --get 5`. -/
def args_get5 : Args :=
  { from_pid := 5, to_pid := 0, type := 1, cmd := 1, exec_argv_offset := 0 }

/-- Resolved arguments of `coresched --new 5`. -/
def args_new5 : Args :=
  { from_pid := 0, to_pid := 5, type := 1, cmd := 2, exec_argv_offset := 0 }

/-- Arguments for a copy from PID 5 to PID 6 at the default scope. -/
def args_copy56 : Args :=
  { from_pid := 5, to_pid := 6, type := 1, cmd := 4, exec_argv_offset := 0 }

/-- Resolved arguments of `coresched -s 5 -- prog` (exec with a source PID,
trailing program at argv offset 2). -/
def args_exec5 : Args :=
  { from_pid := 5, to_pid := 0, type := 1, cmd := 0, exec_argv_offset := 2 }

/-- Resolved arguments of `coresched -- prog` (exec with no source PID,
trailing program at argv offset 1). -/
def args_exec_self : Args :=
  { from_pid := 0, to_pid := 0, type := 1, cmd := 0, exec_argv_offset := 1 }

/-- State of `struct args` right after scanning `-s 5` and before the
post-loop defaulting. -/
def args_scan_s5 : Args :=
  { from_pid := 5, to_pid := 0, type := 1, cmd := 0, exec_argv_offset := 0 }

theorem get_cookie_calls (w : World) (a : Args) (c : KernelCall)
    (h : Event.kernelCall c ∈ (core_sched_get_cookie w a).1) :
    c = KernelCall.get a.from_pid PR_SCHED_CORE_SCOPE_THREAD := by
  simp only [core_sched_get_cookie] at h
  cases hw : w.prctl (KernelCall.get a.from_pid PR_SCHED_CORE_SCOPE_THREAD) <;>
    rw [hw] at h <;> simp_all

theorem create_cookie_calls (w : World) (a : Args) (c : KernelCall)
    (h : Event.kernelCall c ∈ (core_sched_create_cookie w a).1) :
    c = KernelCall.create a.to_pid a.type := by
  simp only [core_sched_create_cookie] at h
  cases hw : w.prctl (KernelCall.create a.to_pid a.type) <;>
    rw [hw] at h <;> simp_all

theorem pull_cookie_calls (w : World) (p : Int) (c : KernelCall)
    (h : Event.kernelCall c ∈ (core_sched_pull_cookie w p).1) :
    c = KernelCall.shareFrom p PR_SCHED_CORE_SCOPE_THREAD := by
  simp only [core_sched_pull_cookie] at h
  cases hw : w.prctl (KernelCall.shareFrom p PR_SCHED_CORE_SCOPE_THREAD) <;>
    rw [hw] at h <;> simp_all

theorem push_cookie_calls (w : World) (p : Int) (ty : Nat) (c : KernelCall)
    (h : Event.kernelCall c ∈ (core_sched_push_cookie w p ty).1) :
    c = KernelCall.shareTo p ty := by
  simp only [core_sched_push_cookie] at h
  cases hw : w.prctl (KernelCall.shareTo p ty) <;>
    rw [hw] at h <;> simp_all

theorem copy_cookie_calls (w : World) (a : Args) (c : KernelCall)
    (h : Event.kernelCall c ∈ (core_sched_copy_cookie w a).1) :
    c = KernelCall.shareFrom a.from_pid PR_SCHED_CORE_SCOPE_THREAD ∨
      c = KernelCall.shareTo a.to_pid a.type := by
  simp only [core_sched_copy_cookie] at h
  rcases hp : core_sched_pull_cookie w a.from_pid with ⟨t1, r1⟩
  rw [hp] at h
  cases r1 with
  | error e =>
      exact Or.inl (pull_cookie_calls w a.from_pid c (by rw [hp]; exact h))
  | ok u =>
      rcases hq : core_sched_push_cookie w a.to_pid a.type with ⟨t2, r2⟩
      rw [hq] at h
      rw [List.mem_append] at h
      rcases h with h | h
      · exact Or.inl (pull_cookie_calls w a.from_pid c (by rw [hp]; exact h))
      · exact Or.inr (push_cookie_calls w a.to_pid a.type c (by rw [hq]; exact h))

theorem exec_cookie_calls (w : World) (a : Args) (c : KernelCall)
    (h : Event.kernelCall c ∈ (core_sched_exec_with_cookie w a).1) :
    c = KernelCall.shareFrom a.from_pid PR_SCHED_CORE_SCOPE_THREAD ∨
      c = KernelCall.create w.selfPid a.type := by
  by_cases h0 : a.exec_argv_offset = 0
  · simp [core_sched_exec_with_cookie, h0] at h
  · by_cases hf : a.from_pid ≠ 0
    · cases hw : w.prctl (KernelCall.shareFrom a.from_pid PR_SCHED_CORE_SCOPE_THREAD) with
      | ok v =>
          cases hx : w.execOk <;>
            simp [core_sched_exec_with_cookie, h0, hf, core_sched_pull_cookie, hw, hx] at h <;>
              exact Or.inl h
      | error e =>
          simp [core_sched_exec_with_cookie, h0, hf, core_sched_pull_cookie, hw] at h
          exact Or.inl h
    · cases hw : w.prctl (KernelCall.create w.selfPid a.type) with
      | ok v =>
          cases hx : w.execOk <;>
            simp [core_sched_exec_with_cookie, h0, hf, core_sched_create_cookie, hw, hx] at h <;>
              exact Or.inr h
      | error e =>
          simp [core_sched_exec_with_cookie, h0, hf, core_sched_create_cookie, hw] at h
          exact Or.inr h

theorem main_kernel_calls (w : World) (fs : List Flag) (argc optind : Nat) (c : KernelCall)
    (h : Event.kernelCall c ∈ (coresched_main w fs argc optind).1) :
    ∃ a, parse_arguments fs argc optind main_initial_args = Except.ok a ∧
      (c = KernelCall.get a.from_pid PR_SCHED_CORE_SCOPE_THREAD ∨
       c = KernelCall.create a.to_pid a.type ∨
       c = KernelCall.create w.selfPid a.type ∨
       c = KernelCall.shareFrom a.from_pid PR_SCHED_CORE_SCOPE_THREAD ∨
       c = KernelCall.shareTo a.to_pid a.type) := by
  cases hparse : parse_arguments fs argc optind main_initial_args with
  | error e => simp [coresched_main, hparse] at h
  | ok a =>
      simp only [coresched_main, hparse] at h
      refine ⟨a, rfl, ?_⟩
      by_cases h1 : a.cmd = SCHED_CORE_CMD_GET
      · simp only [h1, if_pos, eq_self_iff_true, if_true] at h
        cases hw : w.prctl (KernelCall.get a.from_pid PR_SCHED_CORE_SCOPE_THREAD) with
        | ok cookie =>
            by_cases hz : cookie = 0 <;>
              simp [core_sched_get_cookie, hw, hz] at h <;> exact Or.inl h
        | error e =>
            simp [core_sched_get_cookie, hw] at h
            exact Or.inl h
      · rw [if_neg h1] at h
        by_cases h2 : a.cmd = SCHED_CORE_CMD_CREATE
        · simp only [h2, eq_self_iff_true, if_true] at h
          cases hw : w.prctl (KernelCall.create a.to_pid a.type) with
          | ok v =>
              simp [core_sched_create_cookie, hw] at h
              exact Or.inr (Or.inl h)
          | error e =>
              simp [core_sched_create_cookie, hw] at h
              exact Or.inr (Or.inl h)
        · rw [if_neg h2] at h
          by_cases h3 : a.cmd = SCHED_CORE_CMD_COPY
          · simp only [h3, eq_self_iff_true, if_true] at h
            cases hw1 : w.prctl (KernelCall.shareFrom a.from_pid PR_SCHED_CORE_SCOPE_THREAD) with
            | ok v =>
                cases hw2 : w.prctl (KernelCall.shareTo a.to_pid a.type) with
                | ok v2 =>
                    simp [core_sched_copy_cookie, core_sched_pull_cookie,
                      core_sched_push_cookie, hw1, hw2] at h
                    rcases h with h | h
                    · exact Or.inr (Or.inr (Or.inr (Or.inl h)))
                    · exact Or.inr (Or.inr (Or.inr (Or.inr h)))
                | error e =>
                    simp [core_sched_copy_cookie, core_sched_pull_cookie,
                      core_sched_push_cookie, hw1, hw2] at h
                    rcases h with h | h
                    · exact Or.inr (Or.inr (Or.inr (Or.inl h)))
                    · exact Or.inr (Or.inr (Or.inr (Or.inr h)))
            | error e =>
                simp [core_sched_copy_cookie, core_sched_pull_cookie, hw1] at h
                exact Or.inr (Or.inr (Or.inr (Or.inl h)))
          · rw [if_neg h3] at h
            by_cases h4 : a.cmd = SCHED_CORE_CMD_EXEC
            · simp only [h4, eq_self_iff_true, if_true] at h
              rcases exec_cookie_calls w a c h with hc | hc
              · exact Or.inr (Or.inr (Or.inr (Or.inl hc)))
              · exact Or.inr (Or.inr (Or.inl hc))
            · rw [if_neg h4] at h
              simp at h

theorem exec_trace_no_fork (w : World) (a : Args) :
    Event.forkEvent ∉ (core_sched_exec_with_cookie w a).1 := by
  by_cases h0 : a.exec_argv_offset = 0
  · simp [core_sched_exec_with_cookie, h0]
  · by_cases hf : a.from_pid ≠ 0
    · cases hw : w.prctl (KernelCall.shareFrom a.from_pid PR_SCHED_CORE_SCOPE_THREAD) <;>
        cases hx : w.execOk <;>
          simp [core_sched_exec_with_cookie, h0, hf, core_sched_pull_cookie, hw, hx]
    · cases hw : w.prctl (KernelCall.create w.selfPid a.type) <;>
        cases hx : w.execOk <;>
          simp [core_sched_exec_with_cookie, h0, hf, core_sched_create_cookie, hw, hx]

theorem land_one_zero : Nat.land 1 0 = 0 := by decide

theorem land_two_one : Nat.land 2 1 = 0 := by decide

theorem land_four_three : Nat.land 4 3 = 0 := by decide

theorem land_zero_zero : Nat.land 0 0 = 0 := by decide

/-- C2: when the resolved command is Get on source PID p, the tool issues a
PR_SCHED_CORE_GET on p at THREAD granularity; a non-zero cookie is printed
together with the PID and the process exits 0; a zero cookie prints the
no-cookie message and exits 1; a kernel failure with errno e prints the
error message naming p and exits with e itself. -/
theorem C2_get_dispatch (w : World) (fs : List Flag) (argc optind : Nat) (a : Args)
    (hp : parse_arguments fs argc optind main_initial_args = Except.ok a)
    (hc : a.cmd = SCHED_CORE_CMD_GET) :
    (∀ cookie : Nat,
        w.prctl (KernelCall.get a.from_pid PR_SCHED_CORE_SCOPE_THREAD) = Except.ok cookie →
        cookie ≠ 0 →
        coresched_main w fs argc optind =
          ([Event.kernelCall (KernelCall.get a.from_pid PR_SCHED_CORE_SCOPE_THREAD),
            Event.printCookie a.from_pid cookie], 0))
    ∧ (w.prctl (KernelCall.get a.from_pid PR_SCHED_CORE_SCOPE_THREAD) = Except.ok 0 →
        coresched_main w fs argc optind =
          ([Event.kernelCall (KernelCall.get a.from_pid PR_SCHED_CORE_SCOPE_THREAD),
            Event.printNoCookie a.from_pid], 1))
    ∧ (∀ e : Nat,
        w.prctl (KernelCall.get a.from_pid PR_SCHED_CORE_SCOPE_THREAD) = Except.error e →
        coresched_main w fs argc optind =
          ([Event.kernelCall (KernelCall.get a.from_pid PR_SCHED_CORE_SCOPE_THREAD),
            Event.errMsg e a.from_pid OpName.opGet], e)) := by
  refine ⟨?_, ?_, ?_⟩
  · intro cookie hw hnz
    simp [coresched_main, hp, hc, core_sched_get_cookie, hw, hnz]
  · intro hw
    simp [coresched_main, hp, hc, core_sched_get_cookie, hw]
  · intro e hw
    simp [coresched_main, hp, hc, core_sched_get_cookie, hw]

/-- C2 witness: `coresched --get 5` against a kernel reporting cookie 7. -/
theorem C2_get_dispatch_witness :
    coresched_main wOk [Flag.get 5] 1 1 =
      ([Event.kernelCall (KernelCall.get 5 PR_SCHED_CORE_SCOPE_THREAD),
        Event.printCookie 5 7], 0) :=
  (C2_get_dispatch wOk [Flag.get 5] 1 1 args_get5 rfl rfl).1 7 rfl (by decide)

/-- C5: the user-specified scope reaches the kernel only through push-side
calls (CREATE and SHARE_TO, whose scope always equals the parsed type
field); every pull-side call the tool ever makes (a PR_SCHED_CORE_GET read
or a SHARE_FROM pull) is at THREAD granularity, in every reachable run. -/
theorem C5_scope_asymmetry :
    (∀ (w : World) (fs : List Flag) (argc optind : Nat) (c : KernelCall),
        Event.kernelCall c ∈ (coresched_main w fs argc optind).1 →
        pull_side_thread_only c)
    ∧ (∀ (w : World) (fs : List Flag) (argc optind : Nat) (a : Args) (p : Int) (s : Nat),
        parse_arguments fs argc optind main_initial_args = Except.ok a →
        (Event.kernelCall (KernelCall.create p s) ∈ (coresched_main w fs argc optind).1 ∨
         Event.kernelCall (KernelCall.shareTo p s) ∈ (coresched_main w fs argc optind).1) →
        s = a.type) := by
  constructor
  · intro w fs argc optind c hmem
    obtain ⟨a, hp, hdisj⟩ := main_kernel_calls w fs argc optind c hmem
    rcases hdisj with h | h | h | h | h <;> subst h <;>
      simp [pull_side_thread_only]
  · intro w fs argc optind a p s hp hmem
    rcases hmem with hmem | hmem <;>
    · obtain ⟨a2, hp2, hdisj⟩ := main_kernel_calls w fs argc optind _ hmem
      rw [hp] at hp2
      injection hp2 with ha
      subst ha
      rcases hdisj with h | h | h | h | h <;> simp_all

/-- C5 witness: a reachable GET call carries THREAD scope, and a reachable
CREATE call carries the parsed type. -/
theorem C5_scope_asymmetry_witness :
    pull_side_thread_only (KernelCall.get 5 PR_SCHED_CORE_SCOPE_THREAD)
    ∧ (1 : Nat) = args_new5.type :=
  ⟨C5_scope_asymmetry.1 wOk [Flag.get 5] 1 1 _ (by decide),
   C5_scope_asymmetry.2 wOk [Flag.new 5] 1 1 args_new5 5 1 rfl (Or.inl (by decide))⟩

/-- C6: core_sched_copy_cookie is exactly PullInto(from_pid) then
PushFrom(to_pid, scope): a failing pull exits with the kernel error and the
SHARE_TO call never appears; a successful pull followed by a failing push
exits with the push's kernel error and performs no further kernel call (no
rollback); two successes return normally after exactly the two calls. -/
theorem C6_copy_pull_then_push (w : World) (a : Args) :
    (∀ e : Nat,
        w.prctl (KernelCall.shareFrom a.from_pid PR_SCHED_CORE_SCOPE_THREAD) =
          Except.error e →
        core_sched_copy_cookie w a =
          ([Event.kernelCall (KernelCall.shareFrom a.from_pid PR_SCHED_CORE_SCOPE_THREAD),
            Event.errMsg e a.from_pid OpName.opPull], Except.error e))
    ∧ (∀ v e : Nat,
        w.prctl (KernelCall.shareFrom a.from_pid PR_SCHED_CORE_SCOPE_THREAD) = Except.ok v →
        w.prctl (KernelCall.shareTo a.to_pid a.type) = Except.error e →
        core_sched_copy_cookie w a =
          ([Event.kernelCall (KernelCall.shareFrom a.from_pid PR_SCHED_CORE_SCOPE_THREAD),
            Event.kernelCall (KernelCall.shareTo a.to_pid a.type),
            Event.errMsg e a.to_pid OpName.opPush], Except.error e))
    ∧ (∀ v v2 : Nat,
        w.prctl (KernelCall.shareFrom a.from_pid PR_SCHED_CORE_SCOPE_THREAD) = Except.ok v →
        w.prctl (KernelCall.shareTo a.to_pid a.type) = Except.ok v2 →
        core_sched_copy_cookie w a =
          ([Event.kernelCall (KernelCall.shareFrom a.from_pid PR_SCHED_CORE_SCOPE_THREAD),
            Event.kernelCall (KernelCall.shareTo a.to_pid a.type)], Except.ok ())) := by
  refine ⟨?_, ?_, ?_⟩
  · intro e hw
    simp [core_sched_copy_cookie, core_sched_pull_cookie, hw]
  · intro v e hw1 hw2
    simp [core_sched_copy_cookie, core_sched_pull_cookie, core_sched_push_cookie, hw1, hw2]
  · intro v v2 hw1 hw2
    simp [core_sched_copy_cookie, core_sched_pull_cookie, core_sched_push_cookie, hw1, hw2]

/-- C6 witness: copy 5 to 6 against a kernel whose SHARE_TO fails with
errno 1: the adopted cookie is not rolled back and the exit code is 1. -/
theorem C6_copy_pull_then_push_witness :
    core_sched_copy_cookie wPushFail args_copy56 =
      ([Event.kernelCall (KernelCall.shareFrom 5 PR_SCHED_CORE_SCOPE_THREAD),
        Event.kernelCall (KernelCall.shareTo 6 1),
        Event.errMsg 1 6 OpName.opPush], Except.error 1) :=
  (C6_copy_pull_then_push wPushFail args_copy56).2.1 7 1 rfl rfl

/-- C1 counterexample: `coresched -s 5 -- prog` resolves to Exec with a
non-empty trailing program vector (argv offset 2), yet the run contains no
fork at all: the tool pulls the cookie and replaces its own image, so the
claimed fork/wait parent-child structure does not exist in this code. -/
theorem C1_counterexample :
    Except.map (fun a => a.cmd) (parse_arguments [Flag.source 5] 3 2 main_initial_args) =
      Except.ok SCHED_CORE_CMD_EXEC
    ∧ Except.map (fun a => a.exec_argv_offset)
        (parse_arguments [Flag.source 5] 3 2 main_initial_args) = Except.ok 2
    ∧ Event.forkEvent ∉ (coresched_main wOk [Flag.source 5] 3 2).1
    ∧ coresched_main wOk [Flag.source 5] 3 2 =
        ([Event.kernelCall (KernelCall.shareFrom 5 PR_SCHED_CORE_SCOPE_THREAD),
          Event.execImage 2], 5) := by
  refine ⟨rfl, rfl, by decide, rfl⟩

/-- C1 amended: for Exec with a non-empty trailing program vector, the tool
does not fork; in its own process it performs the cookie assignment
(SHARE_FROM the source PID at THREAD scope when one was supplied, otherwise
CREATE on its own PID at the requested scope) strictly before the image
replacement, and when assignment and execvp succeed the process exit status
is the launched program's own status verbatim (the program has become this
process). -/
theorem C1_exec_assigns_before_image (w : World) (a : Args)
    (h : a.exec_argv_offset ≠ 0) :
    Event.forkEvent ∉ (core_sched_exec_with_cookie w a).1
    ∧ (∀ v : Nat, a.from_pid ≠ 0 →
        w.prctl (KernelCall.shareFrom a.from_pid PR_SCHED_CORE_SCOPE_THREAD) = Except.ok v →
        w.execOk = true →
        core_sched_exec_with_cookie w a =
          ([Event.kernelCall (KernelCall.shareFrom a.from_pid PR_SCHED_CORE_SCOPE_THREAD),
            Event.execImage a.exec_argv_offset], w.progStatus))
    ∧ (∀ v : Nat, a.from_pid = 0 →
        w.prctl (KernelCall.create w.selfPid a.type) = Except.ok v →
        w.execOk = true →
        core_sched_exec_with_cookie w a =
          ([Event.kernelCall (KernelCall.create w.selfPid a.type),
            Event.execImage a.exec_argv_offset], w.progStatus)) := by
  refine ⟨exec_trace_no_fork w a, ?_, ?_⟩
  · intro v hf hw he
    simp [core_sched_exec_with_cookie, h, hf, core_sched_pull_cookie, hw, he]
  · intro v hf hw he
    simp [core_sched_exec_with_cookie, h, hf, core_sched_create_cookie, hw, he]

/-- C1 amended witness: exec with source PID 5 against an all-ok kernel. -/
theorem C1_exec_assigns_before_image_witness :
    core_sched_exec_with_cookie wOk args_exec5 =
      ([Event.kernelCall (KernelCall.shareFrom 5 PR_SCHED_CORE_SCOPE_THREAD),
        Event.execImage 2], 5) :=
  (C1_exec_assigns_before_image wOk args_exec5 (by decide)).2.1 7 (by decide) rfl rfl

/-- C3: evaluation of the code at the failing input `--get 5 --copy`: the
scan leaves command bitmask 5 (GET and COPY bits, not a power of two), but
because the post-scan Get-defaulting branch does not test the command
(contradicting its own comment), the command is silently rewritten to GET,
verify_arguments never raises the more-than-one-function error, and a
kernel GET is performed with exit status 0. -/
theorem C3_multi_function_not_rejected :
    Except.map (fun a => a.cmd) (scan_flags [Flag.get 5, Flag.copy] main_initial_args) =
      Except.ok 5
    ∧ Nat.land 5 (5 - 1) ≠ 0
    ∧ coresched_main wOk [Flag.get 5, Flag.copy] 1 1 =
        ([Event.kernelCall (KernelCall.get 5 PR_SCHED_CORE_SCOPE_THREAD),
          Event.printCookie 5 7], 0) := by
  refine ⟨rfl, by decide, rfl⟩

/-- C4 counterexample: `coresched --new 5` resolves to Create (not Exec)
with source PID 0, yet validation succeeds — there is no "PID cannot be
zero" check anywhere — and the kernel CREATE call on PID 5 is performed,
exiting 0. -/
theorem C4_counterexample :
    parse_arguments [Flag.new 5] 1 1 main_initial_args = Except.ok args_new5
    ∧ args_new5.cmd = SCHED_CORE_CMD_CREATE
    ∧ args_new5.from_pid = 0
    ∧ coresched_main wOk [Flag.new 5] 1 1 =
        ([Event.kernelCall (KernelCall.create 5 PR_SCHED_CORE_SCOPE_THREAD_GROUP)], 0) := by
  refine ⟨rfl, rfl, rfl, rfl⟩

/-- C4 amended: validation has no zero-source-PID rule.  Only Copy requires
a non-zero source PID (and a non-zero destination); Get with a zero source
PID passes validation (the later kernel call then targets PID 0, the
calling thread), and Create requires its source PID to be zero, since its
target is carried by the destination PID field. -/
theorem C4_zero_pid_validation (a : Args) :
    (a.cmd = SCHED_CORE_CMD_COPY → a.from_pid = 0 →
        verify_arguments a = Except.error ParseError.copyNeedsSource)
    ∧ (a.cmd = SCHED_CORE_CMD_GET → a.to_pid = 0 →
        verify_arguments a = Except.ok true)
    ∧ (a.cmd = SCHED_CORE_CMD_CREATE → a.from_pid = 0 →
        verify_arguments a = Except.ok true) := by
  refine ⟨?_, ?_, ?_⟩
  · intro h1 h2
    simp [verify_arguments, h1, h2, SCHED_CORE_CMD_GET, SCHED_CORE_CMD_CREATE,
      SCHED_CORE_CMD_COPY, land_four_three]
  · intro h1 h2
    simp [verify_arguments, h1, h2, SCHED_CORE_CMD_GET, land_one_zero]
  · intro h1 h2
    simp [verify_arguments, h1, h2, SCHED_CORE_CMD_GET, SCHED_CORE_CMD_CREATE,
      land_two_one]

/-- C4 amended witness: zero-source Copy is rejected, zero-source Get and
Create pass validation. -/
theorem C4_zero_pid_validation_witness :
    verify_arguments { from_pid := 0, to_pid := 6, type := 1, cmd := 4, exec_argv_offset := 0 } =
      Except.error ParseError.copyNeedsSource
    ∧ verify_arguments { from_pid := 0, to_pid := 0, type := 1, cmd := 1, exec_argv_offset := 0 } =
      Except.ok true
    ∧ verify_arguments args_new5 = Except.ok true :=
  ⟨(C4_zero_pid_validation
      { from_pid := 0, to_pid := 6, type := 1, cmd := 4, exec_argv_offset := 0 }).1 rfl rfl,
   (C4_zero_pid_validation
      { from_pid := 0, to_pid := 0, type := 1, cmd := 1, exec_argv_offset := 0 }).2.1 rfl rfl,
   (C4_zero_pid_validation args_new5).2.2 rfl rfl⟩

/-- C7: evaluation of the code at the failing input `--new 1234` with the
kernel CREATE call failing (errno 13): the CREATE targets PID 1234, but the
error message interpolates args->from_pid, which is necessarily 0 on every
--new invocation, so the failing Create reports PID 0, not the PID it was
creating a cookie for. -/
theorem C7_create_error_reports_wrong_pid :
    coresched_main wCreateFail [Flag.new 1234] 1 1 =
      ([Event.kernelCall (KernelCall.create 1234 PR_SCHED_CORE_SCOPE_THREAD_GROUP),
        Event.errMsg 13 0 OpName.opCreate], 13)
    ∧ (0 : Int) ≠ 1234 := by
  refine ⟨rfl, by decide⟩

/-- C8 counterexample: a bare invocation resolves to Exec with no trailing
program vector, and the tool shows usage and exits with EXIT_SUCCESS = 0 —
a successful exit, not the unsuccessful one the claim requires. -/
theorem C8_counterexample :
    Except.map (fun a => a.cmd) (parse_arguments ([] : List Flag) 1 1 main_initial_args) =
      Except.ok SCHED_CORE_CMD_EXEC
    ∧ Except.map (fun a => a.exec_argv_offset)
        (parse_arguments ([] : List Flag) 1 1 main_initial_args) = Except.ok 0
    ∧ coresched_main wOk [] 1 1 = ([Event.usageShown], EXIT_SUCCESS)
    ∧ EXIT_SUCCESS = 0 := by
  refine ⟨rfl, rfl, rfl, rfl⟩

/-- C8 amended: for every invocation resolved to Exec with no trailing
program vector, the tool shows the usage text and exits successfully
(status EXIT_SUCCESS = 0) before any kernel cookie operation — the trace
holds no kernel call. -/
theorem C8_exec_missing_program_usage (w : World) (fs : List Flag) (argc optind : Nat)
    (a : Args)
    (hp : parse_arguments fs argc optind main_initial_args = Except.ok a)
    (hc : a.cmd = SCHED_CORE_CMD_EXEC)
    (ho : a.exec_argv_offset = 0) :
    coresched_main w fs argc optind = ([Event.usageShown], EXIT_SUCCESS) := by
  simp [coresched_main, hp, hc, core_sched_exec_with_cookie, ho,
    SCHED_CORE_CMD_EXEC, SCHED_CORE_CMD_GET, SCHED_CORE_CMD_CREATE, SCHED_CORE_CMD_COPY]

/-- C8 amended witness: the bare invocation. -/
theorem C8_exec_missing_program_usage_witness :
    coresched_main wOk [] 1 1 = ([Event.usageShown], EXIT_SUCCESS) :=
  C8_exec_missing_program_usage wOk [] 1 1 main_initial_args rfl rfl rfl

/-- C9: when the scan recorded no function flag (command still EXEC = 0),
there are no trailing program tokens, a source PID was supplied and no
destination PID was, the command silently becomes GET on that source PID
(no usage display): parsing succeeds with command GET, and every run then
starts with the kernel GET call on the source PID. -/
theorem C9_source_only_defaults_to_get (fs : List Flag) (argc optind : Nat) (a1 : Args)
    (hs : scan_flags fs main_initial_args = Except.ok a1)
    (hc : a1.cmd = SCHED_CORE_CMD_EXEC)
    (ht : argc = optind)
    (hf : a1.from_pid ≠ 0)
    (hd : a1.to_pid = 0) :
    parse_arguments fs argc optind main_initial_args =
      Except.ok { a1 with cmd := SCHED_CORE_CMD_GET }
    ∧ ∀ w : World, (coresched_main w fs argc optind).1.head? =
        some (Event.kernelCall (KernelCall.get a1.from_pid PR_SCHED_CORE_SCOPE_THREAD)) := by
  have hpar : parse_arguments fs argc optind main_initial_args =
      Except.ok { a1 with cmd := SCHED_CORE_CMD_GET } := by
    subst ht
    simp [parse_arguments, hs, hf, hd, verify_arguments, SCHED_CORE_CMD_GET,
      lt_irrefl, land_one_zero]
  refine ⟨hpar, ?_⟩
  intro w
  cases hw : w.prctl (KernelCall.get a1.from_pid PR_SCHED_CORE_SCOPE_THREAD) with
  | ok cookie =>
      by_cases hz : cookie = 0 <;>
        simp [coresched_main, hpar, core_sched_get_cookie, hw, hz, SCHED_CORE_CMD_GET]
  | error e =>
      simp [coresched_main, hpar, core_sched_get_cookie, hw, SCHED_CORE_CMD_GET]

/-- C9 witness: `coresched -s 5` with no trailing tokens. -/
theorem C9_source_only_defaults_to_get_witness :
    parse_arguments [Flag.source 5] 1 1 main_initial_args =
      Except.ok { args_scan_s5 with cmd := SCHED_CORE_CMD_GET }
    ∧ (coresched_main wOk [Flag.source 5] 1 1).1.head? =
        some (Event.kernelCall (KernelCall.get 5 PR_SCHED_CORE_SCOPE_THREAD)) :=
  ⟨(C9_source_only_defaults_to_get [Flag.source 5] 1 1 args_scan_s5 rfl rfl rfl
      (by decide) rfl).1,
   (C9_source_only_defaults_to_get [Flag.source 5] 1 1 args_scan_s5 rfl rfl rfl
      (by decide) rfl).2 wOk⟩

/-- C10: verify_arguments rejects the opposite-role PID for each single-PID
command — a destination PID with GET, a source PID with CREATE, a
destination PID with EXEC — each with its errx(EINVAL) usage error; and any
parse/validation error makes the process exit with EINVAL and a trace
holding no kernel call. -/
theorem C10_opposite_role_pid_rejected :
    (∀ a : Args, a.cmd = SCHED_CORE_CMD_GET → a.to_pid ≠ 0 →
        verify_arguments a = Except.error ParseError.destWithGet)
    ∧ (∀ a : Args, a.cmd = SCHED_CORE_CMD_CREATE → a.from_pid ≠ 0 →
        verify_arguments a = Except.error ParseError.sourceWithNew)
    ∧ (∀ a : Args, a.cmd = SCHED_CORE_CMD_EXEC → a.to_pid ≠ 0 →
        verify_arguments a = Except.error ParseError.destWithExec)
    ∧ (∀ (w : World) (fs : List Flag) (argc optind : Nat) (e : ParseError),
        parse_arguments fs argc optind main_initial_args = Except.error e →
        coresched_main w fs argc optind = ([Event.parseErr e], EINVAL)) := by
  refine ⟨?_, ?_, ?_, ?_⟩
  · intro a h1 h2
    simp [verify_arguments, h1, h2, SCHED_CORE_CMD_GET, land_one_zero]
  · intro a h1 h2
    simp [verify_arguments, h1, h2, SCHED_CORE_CMD_GET, SCHED_CORE_CMD_CREATE,
      land_two_one]
  · intro a h1 h2
    simp [verify_arguments, h1, h2, SCHED_CORE_CMD_GET, SCHED_CORE_CMD_CREATE,
      SCHED_CORE_CMD_COPY, SCHED_CORE_CMD_EXEC, land_zero_zero]
  · intro w fs argc optind e hp
    simp [coresched_main, hp]

/-- C10 witness: each rejection at a concrete argument record, and the
EINVAL exit with a kernel-call-free trace for `--get 5 --dest 6`. -/
theorem C10_opposite_role_pid_rejected_witness :
    verify_arguments { args_get5 with to_pid := 6 } = Except.error ParseError.destWithGet
    ∧ verify_arguments { args_new5 with from_pid := 7 } = Except.error ParseError.sourceWithNew
    ∧ verify_arguments { args_exec5 with to_pid := 8 } = Except.error ParseError.destWithExec
    ∧ coresched_main wOk [Flag.get 5, Flag.dest 6] 1 1 =
        ([Event.parseErr ParseError.destWithGet], EINVAL) :=
  ⟨C10_opposite_role_pid_rejected.1 { args_get5 with to_pid := 6 } rfl (by decide),
   C10_opposite_role_pid_rejected.2.1 { args_new5 with from_pid := 7 } rfl (by decide),
   C10_opposite_role_pid_rejected.2.2.1 { args_exec5 with to_pid := 8 } rfl (by decide),
   C10_opposite_role_pid_rejected.2.2.2 wOk [Flag.get 5, Flag.dest 6] 1 1
     ParseError.destWithGet rfl⟩

end Coresched
